import Mathlib

/-!
Verification of the xk6-disruptor pod-disruption core: a shallow embedding of
the fault model, the agent command builders (`pkg/disruptors/cmd_builders.go`),
the pod disruptor and its port validation (`pkg/disruptors/pod.go`), and the
agent controller (`pkg/disruptors/contoller.go`), together with theorems
settling the specification's claims about them.

Go `uint` fields are modelled as `Nat`, `int32` as `Int`, and the cluster as a
list of pods.  Fallible operations return `Except String` mirroring Go's
`error` results.
-/

/-- The struct declaring the HTTP fault fields is not part of the sources at
hand; its fields are reconstructed from the spec's data model (`port`,
`averageDelay_ms`, `delayVariation_ms`, `errorRate`, `errorCode`, `errorBody`,
`exclude`) and from the field accesses in `buildHTTPFaultCmd`.  The error rate
(a float in `[0,1]` per the spec) is modelled as a rational. -/
structure HTTPFault where
  Port : Nat := 0
  AverageDelay : Nat := 0
  DelayVariation : Nat := 0
  ErrorRate : ℚ := 0
  ErrorCode : Nat := 0
  ErrorBody : String := ""
  Exclude : String := ""
deriving Repr, DecidableEq

/-- The struct declaring the gRPC fault fields is likewise reconstructed from
the spec's data model and the field accesses in `buildGrpcFaultCmd`; the
status code (a small signed integer) is modelled as `Int`. -/
structure GrpcFault where
  Port : Nat := 0
  AverageDelay : Nat := 0
  DelayVariation : Nat := 0
  ErrorRate : ℚ := 0
  StatusCode : Int := 0
  StatusMessage : String := ""
  Exclude : String := ""
deriving Repr, DecidableEq

/-- Options for the injection of HTTP faults in a target pod
(`pod.go`, `HTTPDisruptionOptions`). -/
structure HTTPDisruptionOptions where
  ProxyPort : Nat := 0
  Iface : String := ""
deriving Repr, DecidableEq

/-- Options for the injection of grpc faults in a target pod
(`pod.go`, `GrpcDisruptionOptions`). -/
structure GrpcDisruptionOptions where
  ProxyPort : Nat := 0
  Iface : String := ""
deriving Repr, DecidableEq

/-- Modelled from the spec: the error-rate field's concrete Go type is declared
outside the sources at hand; the spec fixes it as a float in `[0,1]`, and
`fmt.Sprint` renders such a float in its shortest decimal form.  We model the
rendering for rationals in `[0,1]` having at most six decimal places: `0`
and `1` print bare, and a proper fraction prints as `0.` followed by its
decimal digits with trailing zeros trimmed. -/
def formatRate (q : ℚ) : String :=
  if q ≤ 0 then "0"
  else if 1 ≤ q then toString q.num
  else
    let micros : Nat := q.num.toNat * 1000000 / q.den
    let ds := (toString micros).toList
    let padded := List.replicate (6 - ds.length) '0' ++ ds
    let trimmed := (padded.reverse.dropWhile (fun ch => ch == '0')).reverse
    "0." ++ String.mk trimmed

/-- Embedding of `buildHTTPFaultCmd` (`cmd_builders.go`): the successive
`append` calls become successive list extensions under the same guards. -/
def buildHTTPFaultCmd (fault : HTTPFault) (duration : Nat)
    (options : HTTPDisruptionOptions) : List String :=
  let cmd := ["xk6-disruptor-agent", "http", "-d", toString duration ++ "s"]
  let cmd := if 0 < fault.AverageDelay then
      cmd ++ ["-a", toString fault.AverageDelay, "-v", toString fault.DelayVariation]
    else cmd
  let cmd := if 0 < fault.ErrorRate then
      let cmd := cmd ++ ["-e", toString fault.ErrorCode, "-r", formatRate fault.ErrorRate]
      if fault.ErrorBody ≠ "" then cmd ++ ["-b", fault.ErrorBody] else cmd
    else cmd
  let cmd := if fault.Port ≠ 0 then cmd ++ ["-t", toString fault.Port] else cmd
  let cmd := if 0 < fault.Exclude.length then cmd ++ ["-x", fault.Exclude] else cmd
  let cmd := if options.ProxyPort ≠ 0 then cmd ++ ["-p", toString options.ProxyPort] else cmd
  let cmd := if options.Iface ≠ "" then cmd ++ ["-i", options.Iface] else cmd
  cmd

/-- Embedding of `buildGrpcFaultCmd` (`cmd_builders.go`). -/
def buildGrpcFaultCmd (fault : GrpcFault) (duration : Nat)
    (options : GrpcDisruptionOptions) : List String :=
  let cmd := ["xk6-disruptor-agent", "grpc", "-d", toString duration ++ "s"]
  let cmd := if 0 < fault.AverageDelay then
      cmd ++ ["-a", toString fault.AverageDelay, "-v", toString fault.DelayVariation]
    else cmd
  let cmd := if 0 < fault.ErrorRate then
      let cmd := cmd ++ ["-s", toString fault.StatusCode, "-r", formatRate fault.ErrorRate]
      if fault.StatusMessage ≠ "" then cmd ++ ["-m", fault.StatusMessage] else cmd
    else cmd
  let cmd := if fault.Port ≠ 0 then cmd ++ ["-t", toString fault.Port] else cmd
  let cmd := if 0 < fault.Exclude.length then cmd ++ ["-x", fault.Exclude] else cmd
  let cmd := if options.ProxyPort ≠ 0 then cmd ++ ["-p", toString options.ProxyPort] else cmd
  let cmd := if options.Iface ≠ "" then cmd ++ ["-i", options.Iface] else cmd
  cmd

/-- Modelled from the spec: a container as observed through the Cluster
Gateway's `GetInstance` capability — only its declared port numbers are
consumed by the core (`pod.Spec.Containers[i].Ports[j].ContainerPort`). -/
structure Container where
  Ports : List Nat := []
deriving Repr, DecidableEq

/-- Modelled from the spec: a workload instance as the Cluster Gateway exposes
it — a name in a namespace, a list of containers with their declared ports and
the names of the ephemeral containers attached so far. -/
structure Pod where
  Name : String
  Namespace : String
  Containers : List Container := []
  EphemeralContainers : List String := []
deriving Repr, DecidableEq

/-- Modelled from the spec: the Gateway's `GetInstance(namespace, name)`
capability (`k8s.CoreV1().Pods(ns).Get(ctx, name, ...)`): the instance whose
namespace and name both match, or a `NotFound` error. -/
def getPod (cluster : List Pod) (nspace pname : String) : Except String Pod :=
  match cluster.find? (fun p => p.Namespace == nspace && p.Name == pname) with
  | some p => Except.ok p
  | none => Except.error ("pods \"" ++ pname ++ "\" not found")

/-- The double loop of `validateTargetPort` over `pod.Spec.Containers` and
`container.Ports`: some container of `p` declares `port`. -/
def listensOn (p : Pod) (port : Nat) : Bool :=
  p.Containers.any (fun c => c.Ports.any (fun q => q == port))

/-- The error produced by `validateTargetPort` (`pod.go`):
`fmt.Errorf("target %q doesn't listen to port %d", target, targetPort)`. -/
def portError (target : String) (port : Nat) : String :=
  "target \"" ++ target ++ "\" doesn't listen to port " ++ toString port

/-- The per-target loop of `validateTargetPort` (`pod.go`): fetch each target's
pod and fail on the first target none of whose containers declares `port`. -/
def validateLoop (cluster : List Pod) (nspace : String) (port : Nat) :
    List String → Except String Unit
  | [] => Except.ok ()
  | t :: rest =>
    match getPod cluster nspace t with
    | Except.error e => Except.error e
    | Except.ok pod =>
      if listensOn pod port then validateLoop cluster nspace port rest
      else Except.error (portError t port)

/-- Embedding of `podDisruptor.validateTargetPort` (`pod.go`): a zero port
defaults to 80 before the per-target check.  `nspace` is the namespace the
method reads from `d.selector.Namespace` and `targets` the list returned by
`d.controller.Targets()`. -/
def validateTargetPort (cluster : List Pod) (nspace : String)
    (targets : List String) (targetPort : Nat) : Except String Unit :=
  validateLoop cluster nspace (if targetPort = 0 then 80 else targetPort) targets

/-- Selector attributes (`pod.go`, `PodAttributes`); labels are a list of
key/value pairs. -/
structure PodAttributes where
  Labels : List (String × String) := []
deriving Repr, DecidableEq

/-- Modelled from the spec: the pod selector — namespace plus label
predicates.  Its declaring file is not among the sources at hand; only the
`Namespace` field is consumed by the operations verified here. -/
structure PodSelector where
  Namespace : String := ""
  Select : PodAttributes := {}
  Exclude : PodAttributes := {}
deriving Repr, DecidableEq

/-- State of `agentController` (`contoller.go`); the Go field `namespace` is
rendered `nspace` (`namespace` is a Lean keyword) and the injection timeout in
nanoseconds as an integer. -/
structure agentController where
  nspace : String
  targets : List String
  timeout : Int
deriving Repr, DecidableEq

/-- Embedding of `NewAgentController` (`contoller.go`). -/
def NewAgentController (nspace : String) (targets : List String)
    (timeout : Int) : agentController :=
  { nspace := nspace, targets := targets, timeout := timeout }

/-- The canonical agent container name (`contoller.go`, the
`EphemeralContainer` literal in `InjectDisruptorAgent`). -/
def agentContainerName : String := "xk6-agent"

/-- The scan of `pod.Spec.EphemeralContainers` in `InjectDisruptorAgent`:
an ephemeral container with the canonical agent name is already present. -/
def hasAgent (p : Pod) : Bool :=
  p.EphemeralContainers.contains agentContainerName

/-- Effect on a pod of the Gateway's `AttachEphemeralContainer` with the
canonical agent spec: the agent container name is appended. -/
def attachAgent (p : Pod) : Pod :=
  { p with EphemeralContainers := p.EphemeralContainers ++ [agentContainerName] }

/-- Replace the pod at (namespace, name) by the image under `f`, leaving every
other pod unchanged. -/
def updatePod (cluster : List Pod) (nspace pname : String) (f : Pod → Pod) :
    List Pod :=
  cluster.map (fun p => if p.Namespace == nspace && p.Name == pname then f p else p)

/-- Result of an agent-injection fan-out: the cluster afterwards, the targets
for which `AttachEphemeralContainer` was called, and the per-target errors
sent to the error channel. -/
structure InjectResult where
  cluster : List Pod
  attached : List String
  errs : List String
deriving Repr, DecidableEq

/-- The per-target tasks of `InjectDisruptorAgent` (`contoller.go`): fetch the
pod; on a fetch error report it; skip the pod when the agent container is
already present; otherwise attach the agent container.  The concurrent tasks
touch pairwise distinct pods, so the fan-out is modelled as a left-to-right
fold over the targets. -/
def injectLoop (nspace : String) (cluster : List Pod) :
    List String → InjectResult
  | [] => { cluster := cluster, attached := [], errs := [] }
  | t :: rest =>
    match getPod cluster nspace t with
    | Except.error e =>
      let r := injectLoop nspace cluster rest
      { r with errs := e :: r.errs }
    | Except.ok pod =>
      if hasAgent pod then injectLoop nspace cluster rest
      else
        let r := injectLoop nspace (updatePod cluster nspace t attachAgent) rest
        { r with attached := t :: r.attached }

/-- The controller's wait-then-drain of the error channel: the first collected
error, or success when the channel is empty. -/
def firstError (errs : List String) : Except String Unit :=
  match errs with
  | [] => Except.ok ()
  | e :: _ => Except.error e

/-- Embedding of `agentController.InjectDisruptorAgent` (`contoller.go`):
returns the receiver (whose fields the method never assigns), the first
per-target error or success, the resulting cluster and the attach trace. -/
def agentController.InjectDisruptorAgent (c : agentController)
    (cluster : List Pod) : agentController × Except String Unit × InjectResult :=
  let r := injectLoop c.nspace cluster c.targets
  (c, firstError r.errs, r)

/-- The per-target tasks of `ExecCommand` (`contoller.go`), with the Gateway's
`Exec` abstracted as `execFn : target → argv → result`: every target's agent
runs the command; failures are wrapped and sent to the error channel.  Returns
the (target, argv) executions and the collected errors. -/
def execLoop (execFn : String → List String → Except String Unit)
    (cmd : List String) : List String → List (String × List String) × List String
  | [] => ([], [])
  | t :: rest =>
    let r := execLoop execFn cmd rest
    match execFn t cmd with
    | Except.error e => ((t, cmd) :: r.1, ("error invoking agent: " ++ e) :: r.2)
    | Except.ok _ => ((t, cmd) :: r.1, r.2)

/-- Embedding of `agentController.ExecCommand` (`contoller.go`): fan the
command out to every target, return the receiver, the first error or success,
and the (target, argv) executions. -/
def agentController.ExecCommand (c : agentController)
    (execFn : String → List String → Except String Unit) (cmd : List String) :
    agentController × Except String Unit × List (String × List String) :=
  let r := execLoop execFn cmd c.targets
  (c, firstError r.2, r.1)

/-- Embedding of `agentController.Targets` (`contoller.go`): the stored target
list and a nil error; the method consumes no cluster state. -/
def agentController.Targets (c : agentController) : List String × Option String :=
  (c.targets, none)

/-- State of `podDisruptor` (`pod.go`): the selector as given by the caller
and the constructed agent controller. -/
structure podDisruptor where
  selector : PodSelector
  controller : agentController
deriving Repr, DecidableEq

/-- `metav1.NamespaceDefault`, the cluster's conventional default namespace. -/
def NamespaceDefault : String := "default"

/-- Embedding of `NewPodDisruptor` (`pod.go`).  The target resolver
(`selector.GetTargets`, declared outside the sources at hand) is abstracted by
its result `resolvedTargets`.  The namespace is defaulted, the controller is
built over the defaulted namespace and the resolved targets, agents are
injected synchronously, and any injection error fails construction. -/
def NewPodDisruptor (cluster : List Pod) (selector : PodSelector)
    (resolvedTargets : List String) (injectTimeout : Int) :
    Except String (podDisruptor × List Pod) :=
  let nspace := if selector.Namespace = "" then NamespaceDefault else selector.Namespace
  let controller := NewAgentController nspace resolvedTargets injectTimeout
  let r := (agentController.InjectDisruptorAgent controller cluster).2
  match r.1 with
  | Except.error e => Except.error e
  | Except.ok _ =>
    Except.ok ({ selector := selector, controller := controller }, r.2.cluster)

/-- Embedding of `podDisruptor.Targets` (`pod.go`): delegates to the
controller's stored snapshot. -/
def podDisruptor.Targets (d : podDisruptor) : List String × Option String :=
  agentController.Targets d.controller

/-- Embedding of `podDisruptor.InjectHTTPFaults` (`pod.go`): build the argv,
validate the effective port against every target — reading the namespace from
`d.selector.Namespace` and the targets from `d.controller.Targets()` — and on
success fan the command out through the controller.  Returns the receiver,
the call's result and the (target, argv) executions. -/
def podDisruptor.InjectHTTPFaults (d : podDisruptor) (cluster : List Pod)
    (execFn : String → List String → Except String Unit)
    (fault : HTTPFault) (duration : Nat) (options : HTTPDisruptionOptions) :
    podDisruptor × Except String Unit × List (String × List String) :=
  let cmd := buildHTTPFaultCmd fault duration options
  match validateTargetPort cluster d.selector.Namespace d.controller.targets fault.Port with
  | Except.error e => (d, Except.error e, [])
  | Except.ok _ =>
    let r := agentController.ExecCommand d.controller execFn cmd
    (d, r.2)

/-- Embedding of `podDisruptor.InjectGrpcFaults` (`pod.go`), structured as the
HTTP case. -/
def podDisruptor.InjectGrpcFaults (d : podDisruptor) (cluster : List Pod)
    (execFn : String → List String → Except String Unit)
    (fault : GrpcFault) (duration : Nat) (options : GrpcDisruptionOptions) :
    podDisruptor × Except String Unit × List (String × List String) :=
  let cmd := buildGrpcFaultCmd fault duration options
  match validateTargetPort cluster d.selector.Namespace d.controller.targets fault.Port with
  | Except.error e => (d, Except.error e, [])
  | Except.ok _ =>
    let r := agentController.ExecCommand d.controller execFn cmd
    (d, r.2)

/-- The (namespace, name) key under which the cluster stores an instance;
distinct instances of a well-formed cluster have distinct keys. -/
def podKey (p : Pod) : String × String :=
  (p.Namespace, p.Name)

/-- Number of ephemeral containers of `p` bearing the canonical agent name;
a well-formed instance has at most one (container names are unique). -/
def countAgent (p : Pod) : Nat :=
  p.EphemeralContainers.count agentContainerName

/-- A string has positive length exactly when it is non-empty; bridges the
builders' `len(...) > 0` guards with the spec's "non-empty". -/
theorem string_length_pos (s : String) : 0 < s.length ↔ s ≠ "" := by
  cases s with
  | mk l => simp [String.length, String.ext_iff, List.length_pos]

/-- Appending under a guard, hoisted out: the shape of each `append` call in
the command builders. -/
theorem ite_append (c : Prop) [Decidable c] (a x : List String) :
    (if c then a ++ x else a) = a ++ (if c then x else []) := by
  split <;> simp

/-- The nested error block of the command builders: the error flags plus an
optional body/message flag, hoisted out. -/
theorem ite_append_nested (c1 c2 : Prop) [Decidable c1] [Decidable c2]
    (a x y : List String) :
    (if c1 then (if c2 then (a ++ x) ++ y else a ++ x) else a)
      = a ++ (if c1 then x ++ (if c2 then y else []) else []) := by
  rcases Classical.em c1 with h1 | h1 <;> rcases Classical.em c2 with h2 | h2 <;>
    simp [h1, h2]

/-- `buildHTTPFaultCmd` decomposed into its guarded blocks in emission
order. -/
theorem buildHTTPFaultCmd_blocks (f : HTTPFault) (d : Nat)
    (o : HTTPDisruptionOptions) :
    buildHTTPFaultCmd f d o =
      ["xk6-disruptor-agent", "http", "-d", toString d ++ "s"]
      ++ (if 0 < f.AverageDelay then
            ["-a", toString f.AverageDelay, "-v", toString f.DelayVariation]
          else [])
      ++ (if 0 < f.ErrorRate then
            ["-e", toString f.ErrorCode, "-r", formatRate f.ErrorRate]
            ++ (if f.ErrorBody ≠ "" then ["-b", f.ErrorBody] else [])
          else [])
      ++ (if f.Port ≠ 0 then ["-t", toString f.Port] else [])
      ++ (if f.Exclude ≠ "" then ["-x", f.Exclude] else [])
      ++ (if o.ProxyPort ≠ 0 then ["-p", toString o.ProxyPort] else [])
      ++ (if o.Iface ≠ "" then ["-i", o.Iface] else []) := by
  simp only [buildHTTPFaultCmd]
  rw [ite_append, ite_append, ite_append, ite_append, ite_append_nested, ite_append]
  simp only [string_length_pos, List.append_assoc]

/-- `buildGrpcFaultCmd` decomposed into its guarded blocks in emission
order. -/
theorem buildGrpcFaultCmd_blocks (f : GrpcFault) (d : Nat)
    (o : GrpcDisruptionOptions) :
    buildGrpcFaultCmd f d o =
      ["xk6-disruptor-agent", "grpc", "-d", toString d ++ "s"]
      ++ (if 0 < f.AverageDelay then
            ["-a", toString f.AverageDelay, "-v", toString f.DelayVariation]
          else [])
      ++ (if 0 < f.ErrorRate then
            ["-s", toString f.StatusCode, "-r", formatRate f.ErrorRate]
            ++ (if f.StatusMessage ≠ "" then ["-m", f.StatusMessage] else [])
          else [])
      ++ (if f.Port ≠ 0 then ["-t", toString f.Port] else [])
      ++ (if f.Exclude ≠ "" then ["-x", f.Exclude] else [])
      ++ (if o.ProxyPort ≠ 0 then ["-p", toString o.ProxyPort] else [])
      ++ (if o.Iface ≠ "" then ["-i", o.Iface] else []) := by
  simp only [buildGrpcFaultCmd]
  rw [ite_append, ite_append, ite_append, ite_append, ite_append_nested, ite_append]
  simp only [string_length_pos, List.append_assoc]

/-- Claim C1 as stated is false: on the HTTP fault `errorRate = 0.1`,
`errorCode = 500`, duration 60 and empty options, the builder does not produce
`... -d 60s -r 0.1 -e 500` — the error block places `-e` before `-r`. -/
theorem c1_http_error_argv_counterexample :
    buildHTTPFaultCmd { ErrorRate := mkRat 1 10, ErrorCode := 500 } 60 {}
      ≠ ["xk6-disruptor-agent", "http", "-d", "60s", "-r", "0.1", "-e", "500"] := by
  decide

/-- Claim C1 (amended): for the HTTP fault descriptor with `errorRate = 0.1`,
`errorCode = 500` and all other fields unset, duration 60 and empty options,
the command builder produces exactly
`xk6-disruptor-agent http -d 60s -e 500 -r 0.1`, in this order. -/
theorem c1_http_error_argv :
    buildHTTPFaultCmd { ErrorRate := mkRat 1 10, ErrorCode := 500 } 60 {}
      = ["xk6-disruptor-agent", "http", "-d", "60s", "-e", "500", "-r", "0.1"] := by
  decide

/-- Claim C3: for every HTTP fault, duration and options, the built argv is
the fixed header `xk6-disruptor-agent http -d <duration>s` followed, in this
order and with nothing else, by the delay block iff `averageDelay > 0`, the
error block `-e <code> -r <rate>` (plus `-b <body>` iff the body is non-empty)
iff `errorRate > 0`, `-t` iff the port is non-zero, `-x` iff the exclude list
is non-empty, `-p` iff the proxy port is non-zero, and `-i` iff the interface
is non-empty. -/
theorem c3_http_argv_structure (f : HTTPFault) (d : Nat)
    (o : HTTPDisruptionOptions) :
    buildHTTPFaultCmd f d o =
      ["xk6-disruptor-agent", "http", "-d", toString d ++ "s"]
      ++ (if 0 < f.AverageDelay then
            ["-a", toString f.AverageDelay, "-v", toString f.DelayVariation]
          else [])
      ++ (if 0 < f.ErrorRate then
            ["-e", toString f.ErrorCode, "-r", formatRate f.ErrorRate]
            ++ (if f.ErrorBody ≠ "" then ["-b", f.ErrorBody] else [])
          else [])
      ++ (if f.Port ≠ 0 then ["-t", toString f.Port] else [])
      ++ (if f.Exclude ≠ "" then ["-x", f.Exclude] else [])
      ++ (if o.ProxyPort ≠ 0 then ["-p", toString o.ProxyPort] else [])
      ++ (if o.Iface ≠ "" then ["-i", o.Iface] else []) :=
  buildHTTPFaultCmd_blocks f d o

/-- Claim C8 as stated is false: on the gRPC fault `errorRate = 0.1`,
`statusCode = 14`, `statusMessage = "internal error"`, duration 60 and empty
options, the builder does not produce `... -d 60s -r 0.1 -s 14 -m ...` — the
error block places `-s` before `-r`. -/
theorem c8_grpc_error_argv_counterexample :
    buildGrpcFaultCmd
        { ErrorRate := mkRat 1 10, StatusCode := 14, StatusMessage := "internal error" } 60 {}
      ≠ ["xk6-disruptor-agent", "grpc", "-d", "60s", "-r", "0.1", "-s", "14",
         "-m", "internal error"] := by
  decide

/-- Claim C8 (amended): for the gRPC fault descriptor with `errorRate = 0.1`,
`statusCode = 14`, `statusMessage = "internal error"` and all other fields
unset, duration 60 and empty options, the command builder produces exactly
`xk6-disruptor-agent grpc -d 60s -s 14 -r 0.1 -m internal error`, in this
order. -/
theorem c8_grpc_error_argv :
    buildGrpcFaultCmd
        { ErrorRate := mkRat 1 10, StatusCode := 14, StatusMessage := "internal error" } 60 {}
      = ["xk6-disruptor-agent", "grpc", "-d", "60s", "-s", "14", "-r", "0.1",
         "-m", "internal error"] := by
  decide

/-- Claim C4 names a code bug: the constructor does default the controller's
namespace (the comment in `NewPodDisruptor` says "ensure selector and
controller use default namespace"), but the selector kept in the disruptor is
not updated, and `validateTargetPort` looks pods up under
`d.selector.Namespace`.  With an empty selector namespace, construction
succeeds — the agent is injected into the pod found in the `default`
namespace — yet the very first fault-injection call fails its pod lookup,
because it queries the empty namespace instead of the defaulted one. -/
theorem c4_namespace_default_bug :
    NewPodDisruptor
        [{ Name := "my-app-pod", Namespace := "default",
           Containers := [{ Ports := [80] }] }]
        { Namespace := "" } ["my-app-pod"] 0
      = Except.ok
          ({ selector := { Namespace := "" },
             controller := { nspace := "default", targets := ["my-app-pod"], timeout := 0 } },
           [{ Name := "my-app-pod", Namespace := "default",
              Containers := [{ Ports := [80] }],
              EphemeralContainers := ["xk6-agent"] }])
    ∧ (podDisruptor.InjectHTTPFaults
          { selector := { Namespace := "" },
            controller := { nspace := "default", targets := ["my-app-pod"], timeout := 0 } }
          [{ Name := "my-app-pod", Namespace := "default",
             Containers := [{ Ports := [80] }],
             EphemeralContainers := ["xk6-agent"] }]
          (fun _ _ => Except.ok ()) {} 60 {}).2
      = (Except.error ("pods \"my-app-pod\" not found"), []) := by
  exact ⟨rfl, rfl⟩

/-- If every target resolves to a pod declaring `port`, the validation loop
succeeds. -/
theorem validateLoop_ok (cluster : List Pod) (nspace : String) (port : Nat)
    (targets : List String)
    (h : ∀ t ∈ targets, ∃ p, getPod cluster nspace t = Except.ok p ∧
      listensOn p port = true) :
    validateLoop cluster nspace port targets = Except.ok () := by
  induction targets with
  | nil => rfl
  | cons t rest ih =>
    obtain ⟨p, hp, hl⟩ := h t (List.mem_cons_self t rest)
    simp only [validateLoop, hp, hl, if_true]
    exact ih (fun u hu => h u (List.mem_cons_of_mem _ hu))

/-- Conversely, a successful validation loop means every target resolved to a
pod declaring `port`. -/
theorem validateLoop_ok_mem (cluster : List Pod) (nspace : String) (port : Nat)
    (targets : List String)
    (h : validateLoop cluster nspace port targets = Except.ok ()) :
    ∀ t ∈ targets, ∃ p, getPod cluster nspace t = Except.ok p ∧
      listensOn p port = true := by
  induction targets with
  | nil => intro t ht; exact absurd ht (List.not_mem_nil t)
  | cons t0 rest ih =>
    intro t ht
    rcases hg : getPod cluster nspace t0 with e | p0
    · rw [validateLoop, hg] at h; cases h
    · by_cases hl : listensOn p0 port = true
      · rw [validateLoop, hg] at h
        simp only [hl, if_true] at h
        rcases List.mem_cons.mp ht with rfl | htr
        · exact ⟨p0, hg, hl⟩
        · exact ih h t htr
      · rw [validateLoop, hg] at h
        simp only [hl] at h
        simp at h

/-- If every target resolves and some resolved pod does not declare `port`,
the validation loop fails with the canonical message naming such a target. -/
theorem validateLoop_fail (cluster : List Pod) (nspace : String) (port : Nat)
    (targets : List String)
    (hres : ∀ t ∈ targets, ∃ p, getPod cluster nspace t = Except.ok p)
    (hbad : ∃ t ∈ targets, ∃ p, getPod cluster nspace t = Except.ok p ∧
      listensOn p port = false) :
    ∃ t ∈ targets, ∃ p, getPod cluster nspace t = Except.ok p ∧
      listensOn p port = false ∧
      validateLoop cluster nspace port targets = Except.error (portError t port) := by
  induction targets with
  | nil =>
    obtain ⟨t, ht, _⟩ := hbad
    exact absurd ht (List.not_mem_nil t)
  | cons t0 rest ih =>
    obtain ⟨p0, hp0⟩ := hres t0 (List.mem_cons_self t0 rest)
    by_cases hl0 : listensOn p0 port = true
    · have hbad' : ∃ t ∈ rest, ∃ p, getPod cluster nspace t = Except.ok p ∧
          listensOn p port = false := by
        obtain ⟨t, ht, p, hp, hl⟩ := hbad
        rcases List.mem_cons.mp ht with rfl | htr
        · rw [hp0] at hp
          cases hp
          rw [hl] at hl0
          cases hl0
        · exact ⟨t, htr, p, hp, hl⟩
      obtain ⟨t, ht, p, hp, hl, hv⟩ :=
        ih (fun u hu => hres u (List.mem_cons_of_mem _ hu)) hbad'
      refine ⟨t, List.mem_cons_of_mem _ ht, p, hp, hl, ?_⟩
      rw [validateLoop, hp0]
      simp only [hl0, if_true]
      exact hv
    · have hl0' : listensOn p0 port = false := by
        cases h : listensOn p0 port
        · rfl
        · exact absurd h hl0
      refine ⟨t0, List.mem_cons_self t0 rest, p0, hp0, hl0', ?_⟩
      rw [validateLoop, hp0]
      simp [hl0']

/-- Claim C2: for both fault-injection calls, with effective port
`fault.port` or 80, provided every target's pod lookup succeeds: if some
target's pod does not declare the effective port, the call fails with the
error naming such a target and no command reaches any agent; if every
target's pod declares the effective port, port validation passes. -/
theorem c2_port_validation
    (cluster : List Pod) (d : podDisruptor)
    (execFn : String → List String → Except String Unit)
    (hf : HTTPFault) (gf : GrpcFault) (dh dg : Nat)
    (oh : HTTPDisruptionOptions) (og : GrpcDisruptionOptions)
    (hres : ∀ t ∈ d.controller.targets,
      ∃ p, getPod cluster d.selector.Namespace t = Except.ok p) :
    ((∃ t ∈ d.controller.targets, ∃ p,
        getPod cluster d.selector.Namespace t = Except.ok p ∧
        listensOn p (if hf.Port = 0 then 80 else hf.Port) = false) →
      ∃ t ∈ d.controller.targets, ∃ p,
        getPod cluster d.selector.Namespace t = Except.ok p ∧
        listensOn p (if hf.Port = 0 then 80 else hf.Port) = false ∧
        (podDisruptor.InjectHTTPFaults d cluster execFn hf dh oh).2
          = (Except.error (portError t (if hf.Port = 0 then 80 else hf.Port)), []))
    ∧ ((∃ t ∈ d.controller.targets, ∃ p,
        getPod cluster d.selector.Namespace t = Except.ok p ∧
        listensOn p (if gf.Port = 0 then 80 else gf.Port) = false) →
      ∃ t ∈ d.controller.targets, ∃ p,
        getPod cluster d.selector.Namespace t = Except.ok p ∧
        listensOn p (if gf.Port = 0 then 80 else gf.Port) = false ∧
        (podDisruptor.InjectGrpcFaults d cluster execFn gf dg og).2
          = (Except.error (portError t (if gf.Port = 0 then 80 else gf.Port)), []))
    ∧ ((∀ t ∈ d.controller.targets, ∃ p,
        getPod cluster d.selector.Namespace t = Except.ok p ∧
        listensOn p (if hf.Port = 0 then 80 else hf.Port) = true) →
      validateTargetPort cluster d.selector.Namespace d.controller.targets hf.Port
        = Except.ok ())
    ∧ ((∀ t ∈ d.controller.targets, ∃ p,
        getPod cluster d.selector.Namespace t = Except.ok p ∧
        listensOn p (if gf.Port = 0 then 80 else gf.Port) = true) →
      validateTargetPort cluster d.selector.Namespace d.controller.targets gf.Port
        = Except.ok ()) := by
  refine ⟨?_, ?_, ?_, ?_⟩
  · intro hbad
    obtain ⟨t, ht, p, hp, hl, hv⟩ := validateLoop_fail cluster d.selector.Namespace
      (if hf.Port = 0 then 80 else hf.Port) d.controller.targets hres hbad
    refine ⟨t, ht, p, hp, hl, ?_⟩
    have hv' : validateTargetPort cluster d.selector.Namespace d.controller.targets hf.Port
        = Except.error (portError t (if hf.Port = 0 then 80 else hf.Port)) := hv
    simp [podDisruptor.InjectHTTPFaults, hv']
  · intro hbad
    obtain ⟨t, ht, p, hp, hl, hv⟩ := validateLoop_fail cluster d.selector.Namespace
      (if gf.Port = 0 then 80 else gf.Port) d.controller.targets hres hbad
    refine ⟨t, ht, p, hp, hl, ?_⟩
    have hv' : validateTargetPort cluster d.selector.Namespace d.controller.targets gf.Port
        = Except.error (portError t (if gf.Port = 0 then 80 else gf.Port)) := hv
    simp [podDisruptor.InjectGrpcFaults, hv']
  · intro hall
    exact validateLoop_ok cluster d.selector.Namespace _ d.controller.targets hall
  · intro hall
    exact validateLoop_ok cluster d.selector.Namespace _ d.controller.targets hall

/-- Witness for C2: one target `my-app-pod` declaring only port 80, fault port
8080 — the HTTP call fails naming the target and executes nothing. -/
theorem c2_port_validation_witness :
    (podDisruptor.InjectHTTPFaults
        { selector := { Namespace := "testns" },
          controller := { nspace := "testns", targets := ["my-app-pod"], timeout := 0 } }
        [{ Name := "my-app-pod", Namespace := "testns", Containers := [{ Ports := [80] }] }]
        (fun _ _ => Except.ok ()) { Port := 8080 } 60 {}).2
      = (Except.error (portError "my-app-pod" 8080), []) := by
  have hres : ∀ t ∈ (["my-app-pod"] : List String),
      ∃ p, getPod
        [{ Name := "my-app-pod", Namespace := "testns", Containers := [{ Ports := [80] }] }]
        "testns" t = Except.ok p := by
    intro t ht
    rw [List.mem_singleton] at ht
    subst ht
    exact ⟨_, rfl⟩
  obtain ⟨h1, -, -, -⟩ := c2_port_validation
    [{ Name := "my-app-pod", Namespace := "testns", Containers := [{ Ports := [80] }] }]
    { selector := { Namespace := "testns" },
      controller := { nspace := "testns", targets := ["my-app-pod"], timeout := 0 } }
    (fun _ _ => Except.ok ()) { Port := 8080 } { Port := 8080 } 60 60 {} {} hres
  obtain ⟨t, ht, p, hp, hl, hv⟩ := h1
    ⟨"my-app-pod", by simp,
     { Name := "my-app-pod", Namespace := "testns", Containers := [{ Ports := [80] }] },
     rfl, by decide⟩
  have ht' : t = "my-app-pod" := by simpa using ht
  subst ht'
  simpa using hv

/-- Claim C5 as stated is false: with `errorRate = 0.1` and `errorCode`
unset, `InjectHTTPFaults` does not reject the descriptor — it succeeds and
executes a command carrying `-e 0` on the agent. -/
theorem c5_fault_descriptor_counterexample :
    (podDisruptor.InjectHTTPFaults
        { selector := { Namespace := "testns" },
          controller := { nspace := "testns", targets := ["my-app-pod"], timeout := 0 } }
        [{ Name := "my-app-pod", Namespace := "testns", Containers := [{ Ports := [80] }] }]
        (fun _ _ => Except.ok ()) { ErrorRate := mkRat 1 10 } 60 {}).2
      = (Except.ok (),
         [("my-app-pod",
           ["xk6-disruptor-agent", "http", "-d", "60s", "-e", "0", "-r", "0.1"])]) := by
  rfl

/-- Claim C5 (amended): the fault-injection calls perform no descriptor
validation.  With `errorRate > 0` and `errorCode` (resp. `statusCode`) unset,
the built command carries `-e 0` (resp. `-s 0`) before the rate, and once port
validation passes the call is exactly the controller fan-out of that command —
no fault-descriptor-invalid error exists on this path. -/
theorem c5_no_descriptor_validation
    (cluster : List Pod) (d : podDisruptor)
    (execFn : String → List String → Except String Unit)
    (hf : HTTPFault) (gf : GrpcFault) (dh dg : Nat)
    (oh : HTTPDisruptionOptions) (og : GrpcDisruptionOptions)
    (hh : 0 < hf.ErrorRate) (hhc : hf.ErrorCode = 0)
    (hg : 0 < gf.ErrorRate) (hgc : gf.StatusCode = 0)
    (hvh : validateTargetPort cluster d.selector.Namespace d.controller.targets hf.Port
      = Except.ok ())
    (hvg : validateTargetPort cluster d.selector.Namespace d.controller.targets gf.Port
      = Except.ok ()) :
    List.IsInfix ["-e", "0", "-r", formatRate hf.ErrorRate]
      (buildHTTPFaultCmd hf dh oh)
    ∧ (podDisruptor.InjectHTTPFaults d cluster execFn hf dh oh).2
        = (agentController.ExecCommand d.controller execFn
            (buildHTTPFaultCmd hf dh oh)).2
    ∧ List.IsInfix ["-s", "0", "-r", formatRate gf.ErrorRate]
      (buildGrpcFaultCmd gf dg og)
    ∧ (podDisruptor.InjectGrpcFaults d cluster execFn gf dg og).2
        = (agentController.ExecCommand d.controller execFn
            (buildGrpcFaultCmd gf dg og)).2 := by
  refine ⟨?_, ?_, ?_, ?_⟩
  · have hb := buildHTTPFaultCmd_blocks hf dh oh
    rw [if_pos hh, hhc, show toString (0 : Nat) = "0" from rfl] at hb
    refine ⟨["xk6-disruptor-agent", "http", "-d", toString dh ++ "s"]
        ++ (if 0 < hf.AverageDelay then
              ["-a", toString hf.AverageDelay, "-v", toString hf.DelayVariation]
            else []),
      (if hf.ErrorBody ≠ "" then ["-b", hf.ErrorBody] else [])
        ++ (if hf.Port ≠ 0 then ["-t", toString hf.Port] else [])
        ++ (if hf.Exclude ≠ "" then ["-x", hf.Exclude] else [])
        ++ (if oh.ProxyPort ≠ 0 then ["-p", toString oh.ProxyPort] else [])
        ++ (if oh.Iface ≠ "" then ["-i", oh.Iface] else []), ?_⟩
    rw [hb]
    simp [List.append_assoc]
  · simp [podDisruptor.InjectHTTPFaults, hvh]
  · have hb := buildGrpcFaultCmd_blocks gf dg og
    rw [if_pos hg, hgc, show toString (0 : Int) = "0" from rfl] at hb
    refine ⟨["xk6-disruptor-agent", "grpc", "-d", toString dg ++ "s"]
        ++ (if 0 < gf.AverageDelay then
              ["-a", toString gf.AverageDelay, "-v", toString gf.DelayVariation]
            else []),
      (if gf.StatusMessage ≠ "" then ["-m", gf.StatusMessage] else [])
        ++ (if gf.Port ≠ 0 then ["-t", toString gf.Port] else [])
        ++ (if gf.Exclude ≠ "" then ["-x", gf.Exclude] else [])
        ++ (if og.ProxyPort ≠ 0 then ["-p", toString og.ProxyPort] else [])
        ++ (if og.Iface ≠ "" then ["-i", og.Iface] else []), ?_⟩
    rw [hb]
    simp [List.append_assoc]
  · simp [podDisruptor.InjectGrpcFaults, hvg]

/-- Witness for C5 (amended), at `errorRate = 0.1`, one target listening on
port 80, both fault ports unset. -/
theorem c5_no_descriptor_validation_witness :
    List.IsInfix ["-e", "0", "-r", "0.1"]
      (buildHTTPFaultCmd { ErrorRate := mkRat 1 10 } 60 {})
    ∧ (podDisruptor.InjectHTTPFaults
        { selector := { Namespace := "testns" },
          controller := { nspace := "testns", targets := ["my-app-pod"], timeout := 0 } }
        [{ Name := "my-app-pod", Namespace := "testns", Containers := [{ Ports := [80] }] }]
        (fun _ _ => Except.ok ()) { ErrorRate := mkRat 1 10 } 60 {}).2
      = (agentController.ExecCommand
          { nspace := "testns", targets := ["my-app-pod"], timeout := 0 }
          (fun _ _ => Except.ok ())
          (buildHTTPFaultCmd { ErrorRate := mkRat 1 10 } 60 {})).2
    ∧ List.IsInfix ["-s", "0", "-r", "0.1"]
      (buildGrpcFaultCmd { ErrorRate := mkRat 1 10 } 60 {})
    ∧ (podDisruptor.InjectGrpcFaults
        { selector := { Namespace := "testns" },
          controller := { nspace := "testns", targets := ["my-app-pod"], timeout := 0 } }
        [{ Name := "my-app-pod", Namespace := "testns", Containers := [{ Ports := [80] }] }]
        (fun _ _ => Except.ok ()) { ErrorRate := mkRat 1 10 } 60 {}).2
      = (agentController.ExecCommand
          { nspace := "testns", targets := ["my-app-pod"], timeout := 0 }
          (fun _ _ => Except.ok ())
          (buildGrpcFaultCmd { ErrorRate := mkRat 1 10 } 60 {})).2 := by
  have hfr : formatRate (mkRat 1 10) = "0.1" := by decide
  obtain ⟨h1, h2, h3, h4⟩ := c5_no_descriptor_validation
    [{ Name := "my-app-pod", Namespace := "testns", Containers := [{ Ports := [80] }] }]
    { selector := { Namespace := "testns" },
      controller := { nspace := "testns", targets := ["my-app-pod"], timeout := 0 } }
    (fun _ _ => Except.ok ())
    { ErrorRate := mkRat 1 10 } { ErrorRate := mkRat 1 10 } 60 60 {} {}
    (by decide) rfl (by decide) rfl rfl rfl
  rw [hfr] at h1 h3
  exact ⟨h1, h2, h3, h4⟩

/-- Claim C10: a gRPC fault with unset port is validated against effective
port 80 — the same default as the HTTP case, there being no distinct RPC
default — so the call succeeds only if every target's pod declares container
port 80. -/
theorem c10_grpc_default_port
    (cluster : List Pod) (d : podDisruptor)
    (execFn : String → List String → Except String Unit)
    (gf : GrpcFault) (dg : Nat) (og : GrpcDisruptionOptions)
    (h0 : gf.Port = 0) :
    validateTargetPort cluster d.selector.Namespace d.controller.targets gf.Port
      = validateLoop cluster d.selector.Namespace 80 d.controller.targets
    ∧ (∀ hf : HTTPFault, hf.Port = 0 →
        validateTargetPort cluster d.selector.Namespace d.controller.targets gf.Port
          = validateTargetPort cluster d.selector.Namespace d.controller.targets hf.Port)
    ∧ ((podDisruptor.InjectGrpcFaults d cluster execFn gf dg og).2.1 = Except.ok () →
        ∀ t ∈ d.controller.targets,
          ∃ p, getPod cluster d.selector.Namespace t = Except.ok p ∧
            listensOn p 80 = true) := by
  have he : validateTargetPort cluster d.selector.Namespace d.controller.targets gf.Port
      = validateLoop cluster d.selector.Namespace 80 d.controller.targets := by
    rw [h0]
    simp [validateTargetPort]
  refine ⟨he, ?_, ?_⟩
  · intro hf h0'
    rw [he, h0']
    simp [validateTargetPort]
  · intro hok
    rcases hv : validateTargetPort cluster d.selector.Namespace d.controller.targets gf.Port
      with e | u
    · simp [podDisruptor.InjectGrpcFaults, hv] at hok
    · cases u
      rw [he] at hv
      exact validateLoop_ok_mem cluster d.selector.Namespace 80 d.controller.targets hv

/-- Witness for C10: the gRPC call with unset port against a target listening
on port 80 succeeds, and the theorem recovers that the target declares 80. -/
theorem c10_grpc_default_port_witness :
    ∃ p, getPod
        [{ Name := "my-app-pod", Namespace := "testns", Containers := [{ Ports := [80] }] }]
        "testns" "my-app-pod" = Except.ok p ∧ listensOn p 80 = true := by
  obtain ⟨-, -, h3⟩ := c10_grpc_default_port
    [{ Name := "my-app-pod", Namespace := "testns", Containers := [{ Ports := [80] }] }]
    { selector := { Namespace := "testns" },
      controller := { nspace := "testns", targets := ["my-app-pod"], timeout := 0 } }
    (fun _ _ => Except.ok ()) {} 60 {} rfl
  exact h3 rfl "my-app-pod" (by simp)

/-- Attaching the agent to the (a, b) pod commutes with lookups: `find?` on
the updated cluster is `find?` on the original, with the update applied. -/
theorem find?_updatePod (c : List Pod) (a b ns t : String) :
    (updatePod c a b attachAgent).find? (fun p => p.Namespace == ns && p.Name == t)
      = (c.find? (fun p => p.Namespace == ns && p.Name == t)).map
          (fun p => if p.Namespace == a && p.Name == b then attachAgent p else p) := by
  have hcomp : ((fun p : Pod => p.Namespace == ns && p.Name == t) ∘
      (fun p => if p.Namespace == a && p.Name == b then attachAgent p else p))
      = (fun p : Pod => p.Namespace == ns && p.Name == t) := by
    funext p
    by_cases h : (p.Namespace == a && p.Name == b) = true <;>
      simp [Function.comp, h, attachAgent]
  unfold updatePod
  rw [List.find?_map, hcomp]

/-- `getPod` after an agent attachment elsewhere: the original result with the
update applied to its pod. -/
theorem getPod_updatePod (c : List Pod) (a b ns t : String) :
    getPod (updatePod c a b attachAgent) ns t
      = (getPod c ns t).map
          (fun p => if p.Namespace == a && p.Name == b then attachAgent p else p) := by
  unfold getPod
  rw [find?_updatePod]
  cases hf : List.find? (fun p => p.Namespace == ns && p.Name == t) c <;>
    simp [Except.map]

/-- A pod that has the agent keeps it under any attachment step. -/
theorem hasAgent_update (p : Pod) (a b : String) (h : hasAgent p = true) :
    hasAgent (if p.Namespace == a && p.Name == b then attachAgent p else p) = true := by
  by_cases hc : (p.Namespace == a && p.Name == b) = true
  · have hmem : agentContainerName ∈ p.EphemeralContainers := by
      simpa [hasAgent] using h
    simp [hc, hasAgent, attachAgent, hmem]
  · simp [hc, h]

/-- In a cluster with pairwise distinct (namespace, name) keys, any pod
matching the `getPod` predicate is the pod `getPod` returns. -/
theorem cond_unique (c : List Pod) (hnd : (c.map podKey).Nodup) (ns t : String)
    (p0 : Pod) (h : getPod c ns t = Except.ok p0) :
    ∀ p ∈ c, (p.Namespace == ns && p.Name == t) = true → p = p0 := by
  intro p hp hcond
  unfold getPod at h
  cases hf : List.find? (fun p => p.Namespace == ns && p.Name == t) c with
  | none => rw [hf] at h; cases h
  | some q =>
    rw [hf] at h
    cases h
    have hqmem : p0 ∈ c := List.mem_of_find?_eq_some hf
    have hq0 := List.find?_some hf
    have hqcond : (p0.Namespace == ns && p0.Name == t) = true := hq0
    rw [Bool.and_eq_true] at hcond hqcond
    obtain ⟨hp1, hp2⟩ := hcond
    obtain ⟨hq1, hq2⟩ := hqcond
    have hk : podKey p = podKey p0 := by
      simp only [podKey, Prod.mk.injEq]
      exact ⟨(eq_of_beq hp1).trans (eq_of_beq hq1).symm,
        (eq_of_beq hp2).trans (eq_of_beq hq2).symm⟩
    exact List.inj_on_of_nodup_map hnd hp hqmem hk

/-- A target whose pod already carries the agent container is never in the
attach trace of the injection fan-out. -/
theorem injectLoop_skips (ns t : String) :
    ∀ (ts : List String) (cluster : List Pod) (q : Pod),
      getPod cluster ns t = Except.ok q → hasAgent q = true →
      t ∉ (injectLoop ns cluster ts).attached := by
  intro ts
  induction ts with
  | nil =>
    intro cluster q hq hA
    simp [injectLoop]
  | cons t0 rest ih =>
    intro cluster q hq hA
    rcases hg : getPod cluster ns t0 with e | p0
    · simp only [injectLoop, hg]
      exact ih cluster q hq hA
    · by_cases hA0 : hasAgent p0 = true
      · simp only [injectLoop, hg, hA0, if_true]
        exact ih cluster q hq hA
      · have hA0' : hasAgent p0 = false := by
          cases hh : hasAgent p0
          · rfl
          · exact absurd hh hA0
        simp only [injectLoop, hg, hA0', Bool.false_eq_true, if_false]
        show t ∉ t0 :: (injectLoop ns (updatePod cluster ns t0 attachAgent) rest).attached
        rw [List.mem_cons, not_or]
        constructor
        · intro hEq
          subst hEq
          rw [hq] at hg
          cases hg
          rw [hA] at hA0'
          cases hA0'
        · refine ih (updatePod cluster ns t0 attachAgent)
            (if q.Namespace == ns && q.Name == t0 then attachAgent q else q) ?_ ?_
          · rw [getPod_updatePod, hq]
            rfl
          · exact hasAgent_update q ns t0 hA

/-- The injection fan-out preserves key distinctness and the at-most-one-agent
bound on every pod of the cluster. -/
theorem injectLoop_count (ns : String) :
    ∀ (ts : List String) (cluster : List Pod),
      (cluster.map podKey).Nodup →
      (∀ p ∈ cluster, countAgent p ≤ 1) →
      ((injectLoop ns cluster ts).cluster.map podKey).Nodup ∧
        ∀ p ∈ (injectLoop ns cluster ts).cluster, countAgent p ≤ 1 := by
  intro ts
  induction ts with
  | nil =>
    intro cluster hnd hcnt
    exact ⟨hnd, hcnt⟩
  | cons t0 rest ih =>
    intro cluster hnd hcnt
    rcases hg : getPod cluster ns t0 with e | p0
    · simp only [injectLoop, hg]
      exact ih cluster hnd hcnt
    · by_cases hA : hasAgent p0 = true
      · simp only [injectLoop, hg, hA, if_true]
        exact ih cluster hnd hcnt
      · have hA' : hasAgent p0 = false := by
          cases hh : hasAgent p0
          · rfl
          · exact absurd hh hA
        simp only [injectLoop, hg, hA', Bool.false_eq_true, if_false]
        have hkeys : (updatePod cluster ns t0 attachAgent).map podKey
            = cluster.map podKey := by
          unfold updatePod
          rw [List.map_map]
          congr 1
          funext p
          by_cases hc : (p.Namespace == ns && p.Name == t0) = true <;>
            simp [Function.comp, hc, attachAgent, podKey]
        refine ih (updatePod cluster ns t0 attachAgent) ?_ ?_
        · rw [hkeys]
          exact hnd
        · intro p' hp'
          obtain ⟨p, hp, rfl⟩ := List.mem_map.mp hp'
          by_cases hc : (p.Namespace == ns && p.Name == t0) = true
          · rw [if_pos hc]
            have hpp0 : p = p0 := cond_unique cluster hnd ns t0 p0 hg p hp hc
            subst hpp0
            have hmem : agentContainerName ∉ p.EphemeralContainers := by
              simpa [hasAgent] using hA'
            have h0 : countAgent p = 0 := by
              simpa [countAgent] using List.count_eq_zero.mpr hmem
            have h1 : countAgent (attachAgent p) = countAgent p + 1 := by
              simp [countAgent, attachAgent]
            omega
          · rw [if_neg hc]
            exact hcnt p hp

/-- Claim C6: agent injection is idempotent per target — a target whose pod
already has an ephemeral container named `xk6-agent` is skipped (no
`AttachEphemeralContainer` call for it), and running the injection twice over
a well-formed cluster leaves every pod with at most one ephemeral container of
that name. -/
theorem c6_agent_injection_idempotent
    (c : agentController) (cluster : List Pod)
    (hnd : (cluster.map podKey).Nodup)
    (hcnt : ∀ q ∈ cluster, countAgent q ≤ 1) :
    (∀ t ∈ c.targets, ∀ q, getPod cluster c.nspace t = Except.ok q →
        hasAgent q = true →
        t ∉ (agentController.InjectDisruptorAgent c cluster).2.2.attached)
    ∧ (∀ q ∈ (agentController.InjectDisruptorAgent c
          (agentController.InjectDisruptorAgent c cluster).2.2.cluster).2.2.cluster,
        countAgent q ≤ 1) := by
  constructor
  · intro t ht q hq hA
    exact injectLoop_skips c.nspace t c.targets cluster q hq hA
  · have h1 := injectLoop_count c.nspace c.targets cluster hnd hcnt
    have h2 := injectLoop_count c.nspace c.targets
      (injectLoop c.nspace cluster c.targets).cluster h1.1 h1.2
    exact h2.2

/-- Witness for C6: a target whose pod already carries `xk6-agent` is not in
the attach trace. -/
theorem c6_agent_injection_idempotent_witness :
    "my-app-pod" ∉ (agentController.InjectDisruptorAgent
        { nspace := "testns", targets := ["my-app-pod"], timeout := 0 }
        [{ Name := "my-app-pod", Namespace := "testns",
           Containers := [{ Ports := [80] }],
           EphemeralContainers := ["xk6-agent"] }]).2.2.attached := by
  obtain ⟨h1, -⟩ := c6_agent_injection_idempotent
    { nspace := "testns", targets := ["my-app-pod"], timeout := 0 }
    [{ Name := "my-app-pod", Namespace := "testns",
       Containers := [{ Ports := [80] }],
       EphemeralContainers := ["xk6-agent"] }]
    (by decide) (by decide)
  exact h1 "my-app-pod" (by simp)
    { Name := "my-app-pod", Namespace := "testns",
      Containers := [{ Ports := [80] }],
      EphemeralContainers := ["xk6-agent"] }
    rfl (by decide)

/-- Claim C9: `Targets()` on a constructed disruptor returns exactly the
target list captured at construction with a nil error and consumes no cluster
state (it takes no cluster argument), and none of the operations —
`InjectHTTPFaults`, `InjectGrpcFaults`, `InjectDisruptorAgent`, `ExecCommand`
— changes the receiver holding that stored list. -/
theorem c9_targets_snapshot
    (cluster : List Pod) (sel : PodSelector) (ts : List String) (tmo : Int)
    (d : podDisruptor) (cluster2 : List Pod)
    (h : NewPodDisruptor cluster sel ts tmo = Except.ok (d, cluster2)) :
    podDisruptor.Targets d = (ts, none)
    ∧ (∀ (c3 : List Pod) (execFn : String → List String → Except String Unit)
        (hf : HTTPFault) (dh : Nat) (oh : HTTPDisruptionOptions),
        (podDisruptor.InjectHTTPFaults d c3 execFn hf dh oh).1 = d)
    ∧ (∀ (c3 : List Pod) (execFn : String → List String → Except String Unit)
        (gf : GrpcFault) (dg : Nat) (og : GrpcDisruptionOptions),
        (podDisruptor.InjectGrpcFaults d c3 execFn gf dg og).1 = d)
    ∧ (∀ c3 : List Pod,
        (agentController.InjectDisruptorAgent d.controller c3).1 = d.controller)
    ∧ (∀ (execFn : String → List String → Except String Unit) (cmd : List String),
        (agentController.ExecCommand d.controller execFn cmd).1 = d.controller) := by
  refine ⟨?_, ?_, ?_, ?_, ?_⟩
  · simp only [NewPodDisruptor] at h
    split at h
    · cases h
    · rw [Except.ok.injEq, Prod.mk.injEq] at h
      obtain ⟨hd, -⟩ := h
      subst hd
      rfl
  · intro c3 execFn hf dh oh
    rcases hv : validateTargetPort c3 d.selector.Namespace d.controller.targets hf.Port
      with e | u
    · simp [podDisruptor.InjectHTTPFaults, hv]
    · simp [podDisruptor.InjectHTTPFaults, hv]
  · intro c3 execFn gf dg og
    rcases hv : validateTargetPort c3 d.selector.Namespace d.controller.targets gf.Port
      with e | u
    · simp [podDisruptor.InjectGrpcFaults, hv]
    · simp [podDisruptor.InjectGrpcFaults, hv]
  · intro c3
    rfl
  · intro execFn cmd
    rfl

/-- Witness for C9, on a successful concrete construction. -/
theorem c9_targets_snapshot_witness :
    podDisruptor.Targets
        { selector := { Namespace := "testns" },
          controller := { nspace := "testns", targets := ["my-app-pod"], timeout := 0 } }
      = (["my-app-pod"], none)
    ∧ (podDisruptor.InjectHTTPFaults
        { selector := { Namespace := "testns" },
          controller := { nspace := "testns", targets := ["my-app-pod"], timeout := 0 } }
        [{ Name := "my-app-pod", Namespace := "testns", Containers := [{ Ports := [80] }],
           EphemeralContainers := ["xk6-agent"] }]
        (fun _ _ => Except.ok ()) {} 60 {}).1
      = { selector := { Namespace := "testns" },
          controller := { nspace := "testns", targets := ["my-app-pod"], timeout := 0 } } := by
  obtain ⟨h1, h2, -, -, -⟩ := c9_targets_snapshot
    [{ Name := "my-app-pod", Namespace := "testns", Containers := [{ Ports := [80] }] }]
    { Namespace := "testns" } ["my-app-pod"] 0
    { selector := { Namespace := "testns" },
      controller := { nspace := "testns", targets := ["my-app-pod"], timeout := 0 } }
    [{ Name := "my-app-pod", Namespace := "testns", Containers := [{ Ports := [80] }],
       EphemeralContainers := ["xk6-agent"] }]
    rfl
  exact ⟨h1, h2
    [{ Name := "my-app-pod", Namespace := "testns", Containers := [{ Ports := [80] }],
       EphemeralContainers := ["xk6-agent"] }]
    (fun _ _ => Except.ok ()) {} 60 {}⟩
